import Mathlib

/-!
Verification of the attribution store of the Particular Audience JavaScript SDK
(`pa-sdk.js`).  The development shallowly embeds the attribution-related parts of
the `ParticularAudience` class: the in-memory cache (`this.attributionData`, a JS
`Map`) and the durable key-value storage (cookies or localStorage; both expose
get/set/delete of a string value by key and are modelled by one functional
key-value store) are association lists keyed by the exact strings the source
builds; `Date.now()` is an explicit `now : Nat` in the state.  JS field values
are modelled as `Option String` (`none` = the property is absent/undefined);
numeric payload literals such as the default `actionType` are carried as strings,
since the SDK treats them as opaque payload.
-/

namespace PASdk

/-- JS truthiness of an optional string value: `undefined`/`null` and the empty
string are falsy, every other string is truthy. -/
def jsTruthy : Option String → Bool
  | none => false
  | some s => if s = "" then false else true

/-- JS `a || b` on optional string values: returns `a` when truthy, else `b`. -/
def jsOr (a b : Option String) : Option String :=
  if jsTruthy a then a else b

/-- Passing an optional JS value where a string is consumed; an absent value is
only ever consumed behind truthiness guards, so `""` stands for it. -/
def jsStr (a : Option String) : String :=
  a.getD ""

/-! ### A functional key-value map, used for both the in-memory `Map` cache and
the durable storage backend (cookie jar / localStorage). -/

/-- First-match lookup in an association list. -/
def mapLookup {α : Type} : List (String × α) → String → Option α
  | [], _ => none
  | (k', v) :: rest, k => if k' = k then some v else mapLookup rest k

/-- Remove every binding of a key (JS `Map.delete` / `removeItem` / expired cookie). -/
def mapErase {α : Type} : List (String × α) → String → List (String × α)
  | [], _ => []
  | (k', v) :: rest, k => if k' = k then mapErase rest k else (k', v) :: mapErase rest k

/-- Overwrite binding of a key (JS `Map.set` / `setItem` / `setCookie`): at most
one binding per key remains. -/
def mapSet {α : Type} (m : List (String × α)) (k : String) (v : α) : List (String × α) :=
  (k, v) :: mapErase m k

theorem mapLookup_erase_self {α : Type} (m : List (String × α)) (k : String) :
    mapLookup (mapErase m k) k = none := by
  induction m with
  | nil => rfl
  | cons p rest ih =>
      obtain ⟨pk, pv⟩ := p
      simp only [mapErase]
      by_cases hpk : pk = k
      · rw [if_pos hpk]; exact ih
      · rw [if_neg hpk]
        simp only [mapLookup]
        rw [if_neg hpk]; exact ih

theorem mapLookup_erase_ne {α : Type} (m : List (String × α)) (k k' : String)
    (h : k' ≠ k) : mapLookup (mapErase m k) k' = mapLookup m k' := by
  induction m with
  | nil => rfl
  | cons p rest ih =>
      obtain ⟨pk, pv⟩ := p
      simp only [mapErase, mapLookup]
      by_cases hpk : pk = k
      · rw [if_pos hpk, ih, if_neg]
        intro hh
        exact h (by rw [← hh, hpk])
      · rw [if_neg hpk]
        simp only [mapLookup]
        by_cases hpk' : pk = k'
        · rw [if_pos hpk', if_pos hpk']
        · rw [if_neg hpk', if_neg hpk', ih]

theorem mapLookup_set_self {α : Type} (m : List (String × α)) (k : String) (v : α) :
    mapLookup (mapSet m k v) k = some v := by
  simp [mapSet, mapLookup]

theorem mapLookup_set_ne {α : Type} (m : List (String × α)) (k : String) (v : α)
    (k' : String) (h : k' ≠ k) : mapLookup (mapSet m k v) k' = mapLookup m k' := by
  simp only [mapSet, mapLookup]
  rw [if_neg (fun hh => h hh.symm), mapLookup_erase_ne m k k' h]

theorem mapErase_erase_self {α : Type} (m : List (String × α)) (k : String) :
    mapErase (mapErase m k) k = mapErase m k := by
  induction m with
  | nil => rfl
  | cons p rest ih =>
      obtain ⟨pk, pv⟩ := p
      simp only [mapErase]
      by_cases hpk : pk = k
      · rw [if_pos hpk]; exact ih
      · rw [if_neg hpk]
        simp only [mapErase]
        rw [if_neg hpk, ih]

theorem mapSet_set_self {α : Type} (m : List (String × α)) (k : String) (v₁ v₂ : α) :
    mapSet (mapSet m k v₁) k v₂ = mapSet m k v₂ := by
  simp [mapSet, mapErase, mapErase_erase_self]

/-! ### Key construction

The source builds the in-memory cache key as `` `${productRefId}_${typeSuffix}` ``
and the durable storage key as
`` `${cookiePrefix}attribution_${customerId}_${productRefId}_${typeSuffix}` ``
with `typeSuffix ∈ {"s", "o"}`. -/

/-- In-memory cache key: `` `${productRefId}_${typeSuffix}` ``. -/
def mapKey (productRefId : String) (isSponsored : Bool) : String :=
  productRefId ++ "_" ++ (if isSponsored then "s" else "o")

/-- Durable storage key:
`` `${cookiePrefix}attribution_${customerId}_${productRefId}_${typeSuffix}` ``. -/
def storageKey (cookiePfx customerId productRefId : String) (isSponsored : Bool) : String :=
  cookiePfx ++ "attribution_" ++ customerId ++ "_" ++ productRefId ++ "_" ++
    (if isSponsored then "s" else "o")

/-- The two channel suffixes give different cache keys for the same product. -/
theorem mapKey_sp_ne (r : String) : mapKey r true ≠ mapKey r false := by
  intro h
  have hd := congrArg String.data h
  simp only [mapKey, if_true, if_false, String.data_append] at hd
  have h2 := List.append_inj_right' hd (by decide)
  exact absurd h2 (by decide)

/-- The two channel suffixes give different storage keys for the same
prefix/customer/product. -/
theorem storageKey_sp_ne (p c r : String) :
    storageKey p c r true ≠ storageKey p c r false := by
  intro h
  have hd := congrArg String.data h
  simp only [storageKey, if_true, if_false, String.data_append] at hd
  have h2 := List.append_inj_right' hd (by decide)
  exact absurd h2 (by decide)

/-! ### Data model

`AttributionData` is the object literal built in `_storeAttributionData`
(lines 954-985 of `pa-sdk.js`): the click payload fields, the persisted
`isSponsored` channel flag and the `storedAt`/`expiresAt` timestamps. -/

structure AttributionData where
  clickId : Option String := none
  eventTime : Option String := none
  currentUrl : Option String := none
  referralUrl : Option String := none
  actionType : Option String := none
  contextType : Option String := none
  redirectUrl : Option String := none
  clickPosition : Option String := none
  slot : Option String := none
  widgetId : Option String := none
  routeId : Option String := none
  recommenderId : Option String := none
  campaignId : Option String := none
  tacticId : Option String := none
  tacticLabel : Option String := none
  bannerId : Option String := none
  placementId : Option String := none
  retailBoostCollectionCampaignId : Option String := none
  adSetId : Option String := none
  adSetVersion : Option String := none
  costPerClick : Option String := none
  costPerAction : Option String := none
  costPerMille : Option String := none
  timeStamp : Option String := none
  hmacSalt : Option String := none
  hmac : Option String := none
  supplierId : Option String := none
  isSponsored : Bool := false
  storedAt : Nat := 0
  expiresAt : Nat := 0
deriving DecidableEq, Repr

/-- The `clickData` argument of `_storeAttributionData`: the click event built in
`trackClick` spread together with the derived `isSponsored` flag. -/
structure ClickData where
  clickId : Option String := none
  eventTime : Option String := none
  currentUrl : Option String := none
  referralUrl : Option String := none
  actionType : Option String := none
  contextType : Option String := none
  redirectUrl : Option String := none
  clickPosition : Option String := none
  slot : Option String := none
  widgetId : Option String := none
  routeId : Option String := none
  recommenderId : Option String := none
  campaignId : Option String := none
  tacticId : Option String := none
  tacticLabel : Option String := none
  bannerId : Option String := none
  placementId : Option String := none
  retailBoostCollectionCampaignId : Option String := none
  adSetId : Option String := none
  adSetVersion : Option String := none
  costPerClick : Option String := none
  costPerAction : Option String := none
  costPerMille : Option String := none
  timeStamp : Option String := none
  hmacSalt : Option String := none
  hmac : Option String := none
  supplierId : Option String := none
  isSponsored : Bool := false
deriving DecidableEq, Repr

/-- A value held by the durable storage backend: either the JSON serialisation of
an attribution record (`JSON.stringify` in `_storeAttributionData`, recovered by
`JSON.parse` on read), or a string that `JSON.parse` rejects. -/
inductive StoredVal where
  | ofRecord (d : AttributionData)
  | corrupt
deriving DecidableEq, Repr

/-- The configuration fields the attribution store reads.  `cookiePfx` models
`config.cookiePrefix`; `attributionWindow` is in the same units as `now`. -/
structure Config where
  cookiePfx : String := "pa_"
  attributionWindow : Nat := 2592000000
deriving DecidableEq, Repr

/-- The SDK state the attribution store touches: the session customer id
(`""` models `null` - both are falsy in the guards), the in-memory `Map` cache,
the durable storage, the clock and the ambient page context.  Both storage
backends (cookies and localStorage) expose get/set/delete of a string value by
key; they are modelled by the single functional store `storage`. -/
structure SDKState where
  customerId : String := ""
  cache : List (String × AttributionData) := []
  storage : List (String × StoredVal) := []
  now : Nat := 0
  nowIso : String := ""
  href : String := ""
  referrer : String := ""
deriving DecidableEq, Repr

/-- The fields `_mergeAttributionData` reads from its second argument.  The JS
function is structurally typed; this projection is how each record shape
(an `AttributionData` record or a raw `trackAddToCart` event-data object)
supplies those fields. -/
structure AttrFields where
  recommenderId : Option String := none
  campaignId : Option String := none
  tacticId : Option String := none
  tacticLabel : Option String := none
  bannerId : Option String := none
  placementId : Option String := none
  widgetId : Option String := none
  routeId : Option String := none
  retailBoostCollectionCampaignId : Option String := none
  adSetId : Option String := none
  adSetVersion : Option String := none
  costPerClick : Option String := none
  costPerAction : Option String := none
  costPerMille : Option String := none
  timeStamp : Option String := none
  hmacSalt : Option String := none
  hmac : Option String := none
  supplierId : Option String := none
  isSponsored : Bool := false
deriving DecidableEq, Repr

def AttributionData.attrFields (a : AttributionData) : AttrFields :=
  { recommenderId := a.recommenderId, campaignId := a.campaignId,
    tacticId := a.tacticId, tacticLabel := a.tacticLabel, bannerId := a.bannerId,
    placementId := a.placementId, widgetId := a.widgetId, routeId := a.routeId,
    retailBoostCollectionCampaignId := a.retailBoostCollectionCampaignId,
    adSetId := a.adSetId, adSetVersion := a.adSetVersion,
    costPerClick := a.costPerClick, costPerAction := a.costPerAction,
    costPerMille := a.costPerMille, timeStamp := a.timeStamp,
    hmacSalt := a.hmacSalt, hmac := a.hmac, supplierId := a.supplierId,
    isSponsored := a.isSponsored }

/-! ### The attribution store operations -/

/-- The `attributionData` object literal built in `_storeAttributionData`:
the click payload plus `isSponsored`, `storedAt := Date.now()` and
`expiresAt := Date.now() + this.config.attributionWindow`. -/
def mkAttributionData (cd : ClickData) (now window : Nat) : AttributionData :=
  { clickId := cd.clickId, eventTime := cd.eventTime, currentUrl := cd.currentUrl,
    referralUrl := cd.referralUrl, actionType := cd.actionType,
    contextType := cd.contextType, redirectUrl := cd.redirectUrl,
    clickPosition := cd.clickPosition, slot := cd.slot, widgetId := cd.widgetId,
    routeId := cd.routeId, recommenderId := cd.recommenderId,
    campaignId := cd.campaignId, tacticId := cd.tacticId,
    tacticLabel := cd.tacticLabel, bannerId := cd.bannerId,
    placementId := cd.placementId,
    retailBoostCollectionCampaignId := cd.retailBoostCollectionCampaignId,
    adSetId := cd.adSetId, adSetVersion := cd.adSetVersion,
    costPerClick := cd.costPerClick, costPerAction := cd.costPerAction,
    costPerMille := cd.costPerMille, timeStamp := cd.timeStamp,
    hmacSalt := cd.hmacSalt, hmac := cd.hmac, supplierId := cd.supplierId,
    isSponsored := cd.isSponsored, storedAt := now,
    expiresAt := now + window }

/-- Body of the `try` block of `_storeAttributionData`: the in-memory `Map.set`
(which cannot throw) followed by the durable write, which may throw
(`storeFails` models a throwing backend, e.g. a full or disabled localStorage).
The returned flag records whether an exception was raised inside the block; in
JS the cache mutation survives the throw, so the state already carries it. -/
def storeAttributionTryBody (cfg : Config) (storeFails : Bool) (st : SDKState)
    (productRefId : String) (data : AttributionData) : SDKState × Bool :=
  let st1 := { st with cache := mapSet st.cache (mapKey productRefId data.isSponsored) data }
  if storeFails then (st1, true)
  else
    ({ st1 with
        storage := mapSet st1.storage
                     (storageKey cfg.cookiePfx st.customerId productRefId data.isSponsored)
                     (StoredVal.ofRecord data) },
      false)

/-- The `catch` of `_storeAttributionData`: the error is logged and swallowed,
never re-raised, so the exception flag towards the caller is always `false`. -/
def jsCatchLog (r : SDKState × Bool) : SDKState × Bool :=
  (r.1, false)

/-- `_storeAttributionData(productRefId, clickData)` (lines 946-1003).  Returns
the new state and whether an exception escaped to the caller. -/
def storeAttributionData (cfg : Config) (storeFails : Bool) (st : SDKState)
    (productRefId : String) (cd : ClickData) : SDKState × Bool :=
  if st.customerId = "" ∨ productRefId = "" then (st, false)
  else
    jsCatchLog (storeAttributionTryBody cfg storeFails st productRefId
      (mkAttributionData cd st.now cfg.attributionWindow))

/-- One iteration of the `types.forEach` loop of
`_cleanupExpiredAttributionData`: delete the channel's entry from the in-memory
cache and from durable storage. -/
def cleanupChannel (cfg : Config) (st : SDKState) (productRefId : String)
    (isSponsored : Bool) : SDKState :=
  { st with
    cache := mapErase st.cache (mapKey productRefId isSponsored),
    storage := mapErase st.storage
      (storageKey cfg.cookiePfx st.customerId productRefId isSponsored) }

/-- `_cleanupExpiredAttributionData(productRefId, isSponsored = null)`
(lines 1103-1127): no-op without a customer id, otherwise deletes the requested
channel (or both channels when called with `null`). -/
def cleanupExpiredAttributionData (cfg : Config) (st : SDKState)
    (productRefId : String) (isSponsored : Option Bool) : SDKState :=
  if st.customerId = "" then st
  else
    match isSponsored with
    | none => cleanupChannel cfg (cleanupChannel cfg st productRefId true) productRefId false
    | some b => cleanupChannel cfg st productRefId b

/-- The persistent-storage half of `_getAttributionDataFor` (lines 1024-1047):
read the stored string, `JSON.parse` it (a corrupt value throws; the `catch`
only logs, so the corrupt entry stays in storage), then either repopulate the
cache and return the record if it is live, or clean up the expired channel. -/
def attributionStorageRead (cfg : Config) (st : SDKState) (productRefId : String)
    (isSponsored : Bool) : Option AttributionData × SDKState :=
  match mapLookup st.storage
      (storageKey cfg.cookiePfx st.customerId productRefId isSponsored) with
  | some (StoredVal.ofRecord d) =>
      if st.now < d.expiresAt then
        (some d, { st with cache := mapSet st.cache (mapKey productRefId isSponsored) d })
      else
        (none, cleanupExpiredAttributionData cfg st productRefId (some isSponsored))
  | some StoredVal.corrupt => (none, st)
  | none => (none, st)

/-- `_getAttributionDataFor(productRefId, isSponsored)` (lines 1009-1048):
check the in-memory cache first (deleting a stale entry and falling through to
durable storage), then the persistent storage. -/
def getAttributionDataFor (cfg : Config) (st : SDKState) (productRefId : String)
    (isSponsored : Bool) : Option AttributionData × SDKState :=
  match mapLookup st.cache (mapKey productRefId isSponsored) with
  | some d =>
      if st.now < d.expiresAt then (some d, st)
      else
        attributionStorageRead cfg
          { st with cache := mapErase st.cache (mapKey productRefId isSponsored) }
          productRefId isSponsored
  | none => attributionStorageRead cfg st productRefId isSponsored

/-- `_getAttributionData(productRefId)` (lines 1055-1062): `null` without a
session customer id or a product ref id; otherwise the sponsored channel is
tried first and the organic channel only when the sponsored one yielded nothing
(JS `a || b` short-circuit). -/
def getAttributionData (cfg : Config) (st : SDKState) (productRefId : String) :
    Option AttributionData × SDKState :=
  if st.customerId = "" ∨ productRefId = "" then (none, st)
  else
    match getAttributionDataFor cfg st productRefId true with
    | (some d, st') => (some d, st')
    | (none, st') => getAttributionDataFor cfg st' productRefId false

/-! ### Event enrichment -/

/-- A caller-supplied product object as consumed by `_enrichProductData`
(checkout / purchase products).  `refId` is modelled as a plain string,
`""` standing for an absent value (both are falsy in every guard). -/
structure InputProduct where
  refId : String := ""
  quantity : Option String := none
  price : Option String := none
  routeId : Option String := none
  widgetId : Option String := none
  recommenderId : Option String := none
  campaignId : Option String := none
  tacticId : Option String := none
  clickId : Option String := none
  referralUrl : Option String := none
  tacticLabel : Option String := none
  retailBoostCollectionCampaignId : Option String := none
  adSetId : Option String := none
  adSetVersion : Option String := none
  costPerClick : Option String := none
  costPerAction : Option String := none
  costPerMille : Option String := none
  timeStamp : Option String := none
  hmacSalt : Option String := none
  hmac : Option String := none
  bannerId : Option String := none
  placementId : Option String := none
  supplierId : Option String := none
deriving DecidableEq, Repr

/-- The object literal returned by `_enrichProductData` (lines 764-789), plus
the `supplierId` key that only `_mergeAttributionData` can add (the source
literal has no `supplierId` key, modelled as the `none` set by
`enrichProductData`). -/
structure EnrichedProduct where
  refId : String := ""
  quantity : Option String := none
  price : Option String := none
  routeId : Option String := none
  widgetId : Option String := none
  recommenderId : Option String := none
  campaignId : Option String := none
  tacticId : Option String := none
  clickId : Option String := none
  referralUrl : Option String := none
  tacticLabel : Option String := none
  retailBoostCollectionCampaignId : Option String := none
  adSetId : Option String := none
  adSetVersion : Option String := none
  costPerClick : Option String := none
  costPerAction : Option String := none
  costPerMille : Option String := none
  timeStamp : Option String := none
  hmacSalt : Option String := none
  hmac : Option String := none
  bannerId : Option String := none
  placementId : Option String := none
  supplierId : Option String := none
deriving DecidableEq, Repr

/-- `_enrichProductData(product)` (lines 764-789): copy the tracking fields of
the caller's product; note that the source literal carries the caller's
`adSetId`, `costPerClick`, ..., `hmac` unchanged and has no `supplierId` key. -/
def enrichProductData (p : InputProduct) : EnrichedProduct :=
  { refId := p.refId, quantity := p.quantity, price := p.price,
    routeId := p.routeId, widgetId := p.widgetId,
    recommenderId := p.recommenderId, campaignId := p.campaignId,
    tacticId := p.tacticId, clickId := p.clickId, referralUrl := p.referralUrl,
    tacticLabel := p.tacticLabel,
    retailBoostCollectionCampaignId := p.retailBoostCollectionCampaignId,
    adSetId := p.adSetId, adSetVersion := p.adSetVersion,
    costPerClick := p.costPerClick, costPerAction := p.costPerAction,
    costPerMille := p.costPerMille, timeStamp := p.timeStamp,
    hmacSalt := p.hmacSalt, hmac := p.hmac, bannerId := p.bannerId,
    placementId := p.placementId, supplierId := none }

/-- `_mergeAttributionData(eventData, attributionData)` (lines 1068-1097) at
product shape: always overwrite the core attribution fields; spread the
Retail-Media (sponsored-only) fields over the event only when
`attributionData.isSponsored` is truthy, otherwise the event's own values stay. -/
def mergeAttributionData (e : EnrichedProduct) (a : AttrFields) : EnrichedProduct :=
  { e with
    recommenderId := a.recommenderId, campaignId := a.campaignId,
    tacticId := a.tacticId, tacticLabel := a.tacticLabel,
    bannerId := a.bannerId, placementId := a.placementId,
    widgetId := a.widgetId, routeId := a.routeId,
    retailBoostCollectionCampaignId := a.retailBoostCollectionCampaignId,
    adSetId := if a.isSponsored then a.adSetId else e.adSetId,
    adSetVersion := if a.isSponsored then a.adSetVersion else e.adSetVersion,
    costPerClick := if a.isSponsored then a.costPerClick else e.costPerClick,
    costPerAction := if a.isSponsored then a.costPerAction else e.costPerAction,
    costPerMille := if a.isSponsored then a.costPerMille else e.costPerMille,
    timeStamp := if a.isSponsored then a.timeStamp else e.timeStamp,
    hmacSalt := if a.isSponsored then a.hmacSalt else e.hmacSalt,
    hmac := if a.isSponsored then a.hmac else e.hmac,
    supplierId := if a.isSponsored then a.supplierId else e.supplierId }

/-- `_prepareProductWithAttribution(product)` (lines 795-806): resolve
attribution for the product, merge it in when found, and hand back the record
used so the caller can consume it. -/
def prepareProductWithAttribution (cfg : Config) (st : SDKState) (p : InputProduct) :
    (EnrichedProduct × Option AttributionData) × SDKState :=
  match getAttributionData cfg st p.refId with
  | (some a, st') =>
      ((mergeAttributionData (enrichProductData p) a.attrFields, some a), st')
  | (none, st') => ((enrichProductData p, none), st')

/-! ### The public tracking calls the claims are about

The outbound event queue and its `_cleanObject`/batch transmission are the
out-of-scope transport sink; each `track*` embedding returns the event payload
it would queue (or no payload when the call throws before queueing) together
with the attribution-store state. -/

/-- The `eventData` argument of `trackClick`, restricted to the fields the click
event and the attribution store read. -/
structure ClickInput where
  clickId : Option String := none
  currentUrl : Option String := none
  refId : Option String := none
  actionType : Option String := none
  contextType : Option String := none
  redirectUrl : Option String := none
  referralUrl : Option String := none
  clickPosition : Option String := none
  slot : Option String := none
  widgetId : Option String := none
  routeId : Option String := none
  recommenderId : Option String := none
  campaignId : Option String := none
  tacticId : Option String := none
  tacticLabel : Option String := none
  bannerId : Option String := none
  placementId : Option String := none
  retailBoostCollectionCampaignId : Option String := none
  adSetId : Option String := none
  adSetVersion : Option String := none
  costPerClick : Option String := none
  costPerAction : Option String := none
  costPerMille : Option String := none
  timeStamp : Option String := none
  hmacSalt : Option String := none
  hmac : Option String := none
  supplierId : Option String := none
deriving DecidableEq, Repr

/-- The `event` object built by `trackClick` (lines 220-255), restricted to the
fields `_storeAttributionData` copies, together with the `isSponsored` flag the
spread `{...event, isSponsored: !!(eventData.adSetId && eventData.adSetId.length > 0)}`
adds.  `genId` is the uuid `_generateId()` would produce. -/
def clickEventData (st : SDKState) (e : ClickInput) (genId : String) : ClickData :=
  { clickId := jsOr e.clickId (some genId),
    eventTime := some st.nowIso,
    currentUrl := jsOr e.currentUrl (some st.href),
    referralUrl := jsOr e.referralUrl (some st.referrer),
    actionType := jsOr e.actionType (some "1"),
    contextType := jsOr e.contextType (some "1"),
    redirectUrl := e.redirectUrl, clickPosition := e.clickPosition,
    slot := e.slot, widgetId := e.widgetId, routeId := e.routeId,
    recommenderId := e.recommenderId, campaignId := e.campaignId,
    tacticId := e.tacticId, tacticLabel := e.tacticLabel,
    bannerId := e.bannerId, placementId := e.placementId,
    retailBoostCollectionCampaignId := e.retailBoostCollectionCampaignId,
    adSetId := e.adSetId, adSetVersion := e.adSetVersion,
    costPerClick := e.costPerClick, costPerAction := e.costPerAction,
    costPerMille := e.costPerMille, timeStamp := e.timeStamp,
    hmacSalt := e.hmacSalt, hmac := e.hmac, supplierId := e.supplierId,
    isSponsored := jsTruthy e.adSetId }

/-- `trackClick(eventData)` (lines 219-266), attribution-store effect: the
record is stored only for recommendation-based clicks
(`eventData.refId && (eventData.widgetId || eventData.adSetId)`).  The queued
click event itself goes to the out-of-scope transport sink. -/
def trackClick (cfg : Config) (storeFails : Bool) (st : SDKState)
    (e : ClickInput) (genId : String) : SDKState :=
  if jsTruthy e.refId && (jsTruthy e.widgetId || jsTruthy e.adSetId) then
    (storeAttributionData cfg storeFails st (jsStr e.refId) (clickEventData st e genId)).1
  else st

/-- The product sub-object of an add-to-cart event. -/
structure CartProduct where
  refId : String := ""
  quantity : Option String := none
  price : Option String := none
deriving DecidableEq, Repr

/-- The `eventData` argument of `trackAddToCart`: the cart product plus the
fields that `_mergeAttributionData` would read off the raw event data when the
caller supplied an explicit `clickId`. -/
structure AddToCartInput where
  clickId : Option String := none
  currentUrl : Option String := none
  referralUrl : Option String := none
  product : CartProduct := {}
  recommenderId : Option String := none
  campaignId : Option String := none
  tacticId : Option String := none
  tacticLabel : Option String := none
  bannerId : Option String := none
  placementId : Option String := none
  widgetId : Option String := none
  routeId : Option String := none
  retailBoostCollectionCampaignId : Option String := none
  adSetId : Option String := none
  adSetVersion : Option String := none
  costPerClick : Option String := none
  costPerAction : Option String := none
  costPerMille : Option String := none
  timeStamp : Option String := none
  hmacSalt : Option String := none
  hmac : Option String := none
  supplierId : Option String := none
  isSponsored : Bool := false
deriving DecidableEq, Repr

def AddToCartInput.attrFields (e : AddToCartInput) : AttrFields :=
  { recommenderId := e.recommenderId, campaignId := e.campaignId,
    tacticId := e.tacticId, tacticLabel := e.tacticLabel, bannerId := e.bannerId,
    placementId := e.placementId, widgetId := e.widgetId, routeId := e.routeId,
    retailBoostCollectionCampaignId := e.retailBoostCollectionCampaignId,
    adSetId := e.adSetId, adSetVersion := e.adSetVersion,
    costPerClick := e.costPerClick, costPerAction := e.costPerAction,
    costPerMille := e.costPerMille, timeStamp := e.timeStamp,
    hmacSalt := e.hmacSalt, hmac := e.hmac, supplierId := e.supplierId,
    isSponsored := e.isSponsored }

/-- The add-to-cart event payload: the `baseEvent` of `trackAddToCart` with the
attribution fields `_mergeAttributionData` writes onto it (absent on the base
object, i.e. `none`, until the merge). -/
structure AddToCartEvent where
  currentUrl : Option String := none
  eventTime : String := ""
  product : CartProduct := {}
  clickId : Option String := none
  referralUrl : Option String := none
  recommenderId : Option String := none
  campaignId : Option String := none
  tacticId : Option String := none
  tacticLabel : Option String := none
  bannerId : Option String := none
  placementId : Option String := none
  widgetId : Option String := none
  routeId : Option String := none
  retailBoostCollectionCampaignId : Option String := none
  adSetId : Option String := none
  adSetVersion : Option String := none
  costPerClick : Option String := none
  costPerAction : Option String := none
  costPerMille : Option String := none
  timeStamp : Option String := none
  hmacSalt : Option String := none
  hmac : Option String := none
  supplierId : Option String := none
deriving DecidableEq, Repr

/-- `_mergeAttributionData` at the add-to-cart event shape (the JS function is
structurally typed and is applied both to products and to cart base events). -/
def mergeAttributionDataCart (e : AddToCartEvent) (a : AttrFields) : AddToCartEvent :=
  { e with
    recommenderId := a.recommenderId, campaignId := a.campaignId,
    tacticId := a.tacticId, tacticLabel := a.tacticLabel,
    bannerId := a.bannerId, placementId := a.placementId,
    widgetId := a.widgetId, routeId := a.routeId,
    retailBoostCollectionCampaignId := a.retailBoostCollectionCampaignId,
    adSetId := if a.isSponsored then a.adSetId else e.adSetId,
    adSetVersion := if a.isSponsored then a.adSetVersion else e.adSetVersion,
    costPerClick := if a.isSponsored then a.costPerClick else e.costPerClick,
    costPerAction := if a.isSponsored then a.costPerAction else e.costPerAction,
    costPerMille := if a.isSponsored then a.costPerMille else e.costPerMille,
    timeStamp := if a.isSponsored then a.timeStamp else e.timeStamp,
    hmacSalt := if a.isSponsored then a.hmacSalt else e.hmacSalt,
    hmac := if a.isSponsored then a.hmac else e.hmac,
    supplierId := if a.isSponsored then a.supplierId else e.supplierId }

/-- The `baseEvent` literal of `trackAddToCart` (lines 288-298) followed by the
merge (line 301-303): merged with the resolved record when one was used,
otherwise with the raw caller event data. -/
def mkCartEvent (st : SDKState) (e : AddToCartInput) (ad : Option AttributionData) :
    AddToCartEvent :=
  let base : AddToCartEvent :=
    { currentUrl := jsOr e.currentUrl (some st.href),
      eventTime := st.nowIso,
      product := { refId := e.product.refId, quantity := e.product.quantity,
                   price := e.product.price },
      clickId := jsOr e.clickId (ad.bind (fun a => a.clickId)),
      referralUrl := jsOr e.referralUrl
        (jsOr (some st.referrer) (ad.bind (fun a => a.referralUrl))) }
  match ad with
  | some a => mergeAttributionDataCart base a.attrFields
  | none => mergeAttributionDataCart base e.attrFields

/-- The error `trackAddToCart` throws when neither an explicit `clickId` nor a
resolvable stored record supplies a click id (the spec's
`MissingAttributionError`). -/
inductive TrackError where
  | missingAttribution
deriving DecidableEq, Repr

/-- `trackAddToCart(eventData)` (lines 275-306): resolve attribution only when
the caller supplied no `clickId`; throw before queueing when no usable record
exists.  The returned state carries any resolution side effects; on
`Except.error` no event payload is produced (nothing is queued). -/
def trackAddToCart (cfg : Config) (st : SDKState) (e : AddToCartInput) :
    Except TrackError AddToCartEvent × SDKState :=
  if jsTruthy e.clickId then
    (Except.ok (mkCartEvent st e none), st)
  else
    match getAttributionData cfg st e.product.refId with
    | (none, st') => (Except.error TrackError.missingAttribution, st')
    | (some a, st') =>
        if jsTruthy a.clickId then (Except.ok (mkCartEvent st e (some a)), st')
        else (Except.error TrackError.missingAttribution, st')

/-- An element of the `consumedAttribution` list of `trackPurchase`. -/
structure ConsumedItem where
  refId : String
  isSponsored : Bool
deriving DecidableEq, Repr

/-- One iteration of the `eventData.products.forEach` loop of `trackPurchase`
(lines 338-344): enrich the product and remember any attribution record used. -/
def purchaseStep (cfg : Config)
    (acc : List EnrichedProduct × List ConsumedItem × SDKState) (p : InputProduct) :
    List EnrichedProduct × List ConsumedItem × SDKState :=
  match prepareProductWithAttribution cfg acc.2.2 p with
  | ((prod, some a), st') =>
      (acc.1 ++ [prod], acc.2.1 ++ [{ refId := p.refId, isSponsored := a.isSponsored }], st')
  | ((prod, none), st') => (acc.1 ++ [prod], acc.2.1, st')

/-- `trackPurchase(eventData)` (lines 334-367), attribution effect: enrich every
product, queue the purchase event (transport sink), then delete each consumed
record's channel so future purchases require new clicks.  Returns the enriched
products of the queued event and the final state. -/
def trackPurchase (cfg : Config) (st : SDKState) (products : List InputProduct) :
    List EnrichedProduct × SDKState :=
  let folded := products.foldl (purchaseStep cfg) ([], [], st)
  let finalSt := folded.2.1.foldl
    (fun s it => cleanupExpiredAttributionData cfg s it.refId (some it.isSponsored))
    folded.2.2
  (folded.1, finalSt)

/-! ### General lemmas about the store operations -/

theorem cleanupChannel_cache_eq (cfg : Config) (st : SDKState) (r : String) (b : Bool) :
    (cleanupChannel cfg st r b).cache = mapErase st.cache (mapKey r b) := rfl

theorem cleanupChannel_storage_eq (cfg : Config) (st : SDKState) (r : String) (b : Bool) :
    (cleanupChannel cfg st r b).storage =
      mapErase st.storage (storageKey cfg.cookiePfx st.customerId r b) := rfl

theorem cleanupChannel_now (cfg : Config) (st : SDKState) (r : String) (b : Bool) :
    (cleanupChannel cfg st r b).now = st.now := rfl

theorem cleanupChannel_customerId (cfg : Config) (st : SDKState) (r : String) (b : Bool) :
    (cleanupChannel cfg st r b).customerId = st.customerId := rfl

theorem cleanupChannel_cache_self (cfg : Config) (st : SDKState) (r : String) (b : Bool) :
    mapLookup (cleanupChannel cfg st r b).cache (mapKey r b) = none :=
  mapLookup_erase_self _ _

theorem cleanupChannel_storage_self (cfg : Config) (st : SDKState) (r : String) (b : Bool) :
    mapLookup (cleanupChannel cfg st r b).storage
      (storageKey cfg.cookiePfx st.customerId r b) = none :=
  mapLookup_erase_self _ _

theorem cleanupChannel_cache_ne (cfg : Config) (st : SDKState) (r : String) (b : Bool)
    (k : String) (h : k ≠ mapKey r b) :
    mapLookup (cleanupChannel cfg st r b).cache k = mapLookup st.cache k :=
  mapLookup_erase_ne _ _ _ h

theorem cleanupChannel_storage_ne (cfg : Config) (st : SDKState) (r : String) (b : Bool)
    (k : String) (h : k ≠ storageKey cfg.cookiePfx st.customerId r b) :
    mapLookup (cleanupChannel cfg st r b).storage k = mapLookup st.storage k :=
  mapLookup_erase_ne _ _ _ h

/-- A record stored (in the cache, or in durable storage with a cold cache) and
unexpired at the current clock: the situations in which a channel read hits. -/
def liveAt (cfg : Config) (st : SDKState) (r : String) (sp : Bool)
    (d : AttributionData) : Prop :=
  st.now < d.expiresAt ∧
  (mapLookup st.cache (mapKey r sp) = some d ∨
   (mapLookup st.cache (mapKey r sp) = none ∧
    mapLookup st.storage (storageKey cfg.cookiePfx st.customerId r sp) =
      some (StoredVal.ofRecord d)))

instance (cfg : Config) (st : SDKState) (r : String) (sp : Bool) (d : AttributionData) :
    Decidable (liveAt cfg st r sp d) := by
  unfold liveAt; infer_instance

/-- A live channel read returns the record; it leaves durable storage untouched
and changes the cache at most at the channel's own key. -/
theorem getFor_of_liveAt {cfg : Config} {st : SDKState} {r : String} {sp : Bool}
    {d : AttributionData} (h : liveAt cfg st r sp d) :
    (getAttributionDataFor cfg st r sp).1 = some d ∧
    (∀ k, k ≠ mapKey r sp →
      mapLookup (getAttributionDataFor cfg st r sp).2.cache k = mapLookup st.cache k) ∧
    (getAttributionDataFor cfg st r sp).2.storage = st.storage ∧
    (getAttributionDataFor cfg st r sp).2.now = st.now ∧
    (getAttributionDataFor cfg st r sp).2.customerId = st.customerId := by
  obtain ⟨hlive, hc | ⟨hc, hs⟩⟩ := h
  · have heq : getAttributionDataFor cfg st r sp = (some d, st) := by
      simp [getAttributionDataFor, hc, hlive]
    rw [heq]
    exact ⟨rfl, fun k _ => rfl, rfl, rfl, rfl⟩
  · have heq : getAttributionDataFor cfg st r sp =
        (some d, { st with cache := mapSet st.cache (mapKey r sp) d }) := by
      simp [getAttributionDataFor, hc, attributionStorageRead, hs, hlive]
    rw [heq]
    exact ⟨rfl, fun k hk => mapLookup_set_ne _ _ _ _ hk, rfl, rfl, rfl⟩

/-- A channel whose key is absent from both the cache and durable storage reads
as `null` with no side effect. -/
theorem getFor_of_absent {cfg : Config} {st : SDKState} {r : String} {sp : Bool}
    (hc : mapLookup st.cache (mapKey r sp) = none)
    (hs : mapLookup st.storage (storageKey cfg.cookiePfx st.customerId r sp) = none) :
    getAttributionDataFor cfg st r sp = (none, st) := by
  simp [getAttributionDataFor, hc, attributionStorageRead, hs]

/-- Any record handed out by the persistent-storage half is unexpired. -/
theorem storageRead_some_live {cfg : Config} {st : SDKState} {r : String} {sp : Bool}
    {d : AttributionData} (h : (attributionStorageRead cfg st r sp).1 = some d) :
    st.now < d.expiresAt := by
  unfold attributionStorageRead at h
  split at h
  · split at h
    · simp only [Prod.fst] at h
      cases h
      assumption
    · simp at h
  · simp at h
  · simp at h

/-- Any record handed out by a channel read is unexpired at the read's clock. -/
theorem getFor_some_live {cfg : Config} {st : SDKState} {r : String} {sp : Bool}
    {d : AttributionData} (h : (getAttributionDataFor cfg st r sp).1 = some d) :
    st.now < d.expiresAt := by
  unfold getAttributionDataFor at h
  split at h
  · split at h
    · simp only [Prod.fst] at h
      cases h
      assumption
    · have := storageRead_some_live h
      exact this
  · exact storageRead_some_live h

theorem storageRead_now (cfg : Config) (st : SDKState) (r : String) (sp : Bool) :
    (attributionStorageRead cfg st r sp).2.now = st.now := by
  unfold attributionStorageRead
  split
  · split
    · rfl
    · unfold cleanupExpiredAttributionData
      split
      · rfl
      · rfl
  · rfl
  · rfl

theorem storageRead_customerId (cfg : Config) (st : SDKState) (r : String) (sp : Bool) :
    (attributionStorageRead cfg st r sp).2.customerId = st.customerId := by
  unfold attributionStorageRead
  split
  · split
    · rfl
    · unfold cleanupExpiredAttributionData
      split
      · rfl
      · rfl
  · rfl
  · rfl

theorem getFor_now (cfg : Config) (st : SDKState) (r : String) (sp : Bool) :
    (getAttributionDataFor cfg st r sp).2.now = st.now := by
  unfold getAttributionDataFor
  split
  · split
    · rfl
    · exact storageRead_now ..
  · exact storageRead_now ..

theorem getFor_customerId (cfg : Config) (st : SDKState) (r : String) (sp : Bool) :
    (getAttributionDataFor cfg st r sp).2.customerId = st.customerId := by
  unfold getAttributionDataFor
  split
  · split
    · rfl
    · exact storageRead_customerId ..
  · exact storageRead_customerId ..

/-- Any record `resolve` (`_getAttributionData`) returns is unexpired: an
expired record is never handed out. -/
theorem resolve_some_live {cfg : Config} {st : SDKState} {r : String}
    {d : AttributionData} (h : (getAttributionData cfg st r).1 = some d) :
    st.now < d.expiresAt := by
  unfold getAttributionData at h
  split at h
  · simp at h
  · split at h
    · next heq =>
        have h1 : (getAttributionDataFor cfg st r true).1 = some d := by
          rw [heq]
          simpa using h
        exact getFor_some_live h1
    · next st' heq =>
        have hnow : st'.now = st.now := by
          have := getFor_now cfg st r true
          rw [heq] at this
          exact this
        have h2 : (getAttributionDataFor cfg st' r false).1 = some d := h ▸ rfl
        have := getFor_some_live h2
        rw [hnow] at this
        exact this

/-- A successful store (guards passed, durable write not failing) updates
exactly the channel's cache and storage entries. -/
theorem store_ok_eq (cfg : Config) (st : SDKState) (refId : String) (cd : ClickData)
    (hguard : ¬(st.customerId = "" ∨ refId = "")) :
    (storeAttributionData cfg false st refId cd).1 =
      { st with
        cache := mapSet st.cache (mapKey refId cd.isSponsored)
          (mkAttributionData cd st.now cfg.attributionWindow),
        storage := mapSet st.storage
          (storageKey cfg.cookiePfx st.customerId refId cd.isSponsored)
          (StoredVal.ofRecord (mkAttributionData cd st.now cfg.attributionWindow)) } := by
  unfold storeAttributionData
  rw [if_neg hguard]
  rfl

/-- Reading a channel whose durable entry parses but is expired deletes the
channel from cache and storage and returns `null`. -/
theorem storageRead_expired_eq {cfg : Config} {st : SDKState} {refId : String}
    {sp : Bool} {d : AttributionData} (hcust : st.customerId ≠ "")
    (hstore : mapLookup st.storage (storageKey cfg.cookiePfx st.customerId refId sp) =
      some (StoredVal.ofRecord d))
    (hexp : ¬ st.now < d.expiresAt) :
    attributionStorageRead cfg st refId sp = (none, cleanupChannel cfg st refId sp) := by
  simp [attributionStorageRead, hstore, hexp, cleanupExpiredAttributionData, hcust]

/-! ### Concrete objects used by the witnesses and counterexamples -/

def sampleCfg : Config := { cookiePfx := "pa_", attributionWindow := 1000 }

/-- A record as stored for a sponsored click, expiring at t = 100. -/
def sponsoredRec : AttributionData :=
  { clickId := some "CS", adSetId := some "AS1", supplierId := some "SUP",
    hmac := some "H", isSponsored := true, expiresAt := 100 }

/-- A record as stored for an organic click, expiring at t = 100. -/
def organicRec : AttributionData :=
  { clickId := some "CO", widgetId := some "W1", isSponsored := false,
    expiresAt := 100 }

/-- A state at t = 5 holding both channels' records for product "P" in durable
storage, with a cold cache. -/
def stBoth : SDKState :=
  { customerId := "cust", now := 5,
    storage := [(storageKey "pa_" "cust" "P" true, StoredVal.ofRecord sponsoredRec),
                (storageKey "pa_" "cust" "P" false, StoredVal.ofRecord organicRec)] }

/-- A state at t = 200, after the t = 100 expiry of the stored sponsored
record for "P". -/
def stExpired : SDKState :=
  { customerId := "cust", now := 200,
    storage := [(storageKey "pa_" "cust" "P" true, StoredVal.ofRecord sponsoredRec)] }

/-- A state at t = 5 holding only the organic record for "P". -/
def stOrganicOnly : SDKState :=
  { customerId := "cust", now := 5,
    storage := [(storageKey "pa_" "cust" "P" false, StoredVal.ofRecord organicRec)] }

/-- A state at t = 5 whose stored value for the sponsored channel of "P" is a
string `JSON.parse` rejects. -/
def stCorrupt : SDKState :=
  { customerId := "cust", now := 5,
    storage := [(storageKey "pa_" "cust" "P" true, StoredVal.corrupt)] }

/-- A checkout/purchase product for "P" whose caller data already carries an
ad-set id. -/
def pWithAdSet : InputProduct := { refId := "P", adSetId := some "A" }

/-- A sponsored click's event data (non-empty `adSetId`). -/
def clickSponsored : ClickInput :=
  { clickId := some "C1", refId := some "P", adSetId := some "A" }

/-- Click data as `_storeAttributionData` receives it for a sponsored click. -/
def cdSample : ClickData :=
  { clickId := some "C1", adSetId := some "A", isSponsored := true }

/-- If an optional JS value is truthy, reading it as a string is non-empty. -/
theorem jsStr_ne_of_truthy {a : Option String} (h : jsTruthy a = true) :
    jsStr a ≠ "" := by
  cases a with
  | none => simp [jsTruthy] at h
  | some s =>
      by_cases hs : s = ""
      · rw [hs] at h
        simp [jsTruthy] at h
      · simpa [jsStr] using hs

/-! ### The claims -/

/-- Claim C1: for a product with both a live sponsored and a live organic
record under the current customer id, `_getAttributionData` returns the
sponsored record; the organic channel's cache entry and the whole durable
storage are untouched by the resolution (the organic channel is consulted only
when the sponsored one yields nothing live - here it yielded the record, so
nothing of the organic channel is read or modified). -/
theorem C1_sponsored_priority (cfg : Config) (st : SDKState) (refId : String)
    (s o : AttributionData)
    (hcust : st.customerId ≠ "") (href : refId ≠ "")
    (hs : liveAt cfg st refId true s) (ho : liveAt cfg st refId false o) :
    (getAttributionData cfg st refId).1 = some s ∧
    mapLookup (getAttributionData cfg st refId).2.cache (mapKey refId false) =
      mapLookup st.cache (mapKey refId false) ∧
    (getAttributionData cfg st refId).2.storage = st.storage := by
  obtain ⟨h1, hframe, hstor, hnow, hcid⟩ := getFor_of_liveAt hs
  have hguard : ¬(st.customerId = "" ∨ refId = "") := by
    push_neg
    exact ⟨hcust, href⟩
  have hpair : getAttributionDataFor cfg st refId true =
      (some s, (getAttributionDataFor cfg st refId true).2) :=
    Prod.ext_iff.mpr ⟨h1, rfl⟩
  have hres : getAttributionData cfg st refId =
      (some s, (getAttributionDataFor cfg st refId true).2) := by
    unfold getAttributionData
    rw [if_neg hguard, hpair]
  rw [hres]
  exact ⟨rfl, hframe _ (Ne.symm (mapKey_sp_ne refId)), hstor⟩

/-- Witness for C1 at a concrete state holding a live sponsored and a live
organic record for product "P". -/
theorem C1_sponsored_priority_witness :
    (getAttributionData sampleCfg stBoth "P").1 = some sponsoredRec :=
  (C1_sponsored_priority sampleCfg stBoth "P" sponsoredRec organicRec
    (by decide) (by decide) (by decide) (by decide)).1

/-- Claim C2: a stored record that is expired at read time (`expiresAt <= now`)
is never returned by `_getAttributionData`, and the channel read encountering
it (the in-memory cache holding at most a mirror of the same record, per the
cache-mirror invariant) returns `null` and deletes it from both the in-memory
cache and durable storage, so a subsequent read of the channel finds it absent. -/
theorem C2_expired_never_returned_deleted (cfg : Config) (st : SDKState)
    (refId : String) (sp : Bool) (d : AttributionData)
    (hcust : st.customerId ≠ "")
    (hstore : mapLookup st.storage (storageKey cfg.cookiePfx st.customerId refId sp) =
      some (StoredVal.ofRecord d))
    (hexp : d.expiresAt ≤ st.now)
    (hcache : mapLookup st.cache (mapKey refId sp) = none ∨
              mapLookup st.cache (mapKey refId sp) = some d) :
    (getAttributionData cfg st refId).1 ≠ some d ∧
    (getAttributionDataFor cfg st refId sp).1 = none ∧
    mapLookup (getAttributionDataFor cfg st refId sp).2.cache (mapKey refId sp) = none ∧
    mapLookup (getAttributionDataFor cfg st refId sp).2.storage
      (storageKey cfg.cookiePfx st.customerId refId sp) = none ∧
    (getAttributionDataFor cfg (getAttributionDataFor cfg st refId sp).2 refId sp).1
      = none := by
  have hexp' : ¬ st.now < d.expiresAt := by omega
  have hnever : (getAttributionData cfg st refId).1 ≠ some d := by
    intro h
    have := resolve_some_live h
    omega
  rcases hcache with hc | hc
  · have hfor : getAttributionDataFor cfg st refId sp =
        (none, cleanupChannel cfg st refId sp) := by
      unfold getAttributionDataFor
      rw [hc]
      exact storageRead_expired_eq hcust hstore hexp'
    rw [hfor]
    refine ⟨hnever, rfl, cleanupChannel_cache_self .., cleanupChannel_storage_self ..,
      ?_⟩
    rw [getFor_of_absent (cleanupChannel_cache_self ..) (cleanupChannel_storage_self ..)]
  · have hfor : getAttributionDataFor cfg st refId sp =
        (none, cleanupChannel cfg
          { st with cache := mapErase st.cache (mapKey refId sp) } refId sp) := by
      unfold getAttributionDataFor
      rw [hc]
      dsimp only
      rw [if_neg hexp']
      exact storageRead_expired_eq hcust hstore hexp'
    rw [hfor]
    refine ⟨hnever, rfl, cleanupChannel_cache_self .., cleanupChannel_storage_self ..,
      ?_⟩
    rw [getFor_of_absent (cleanupChannel_cache_self ..) (cleanupChannel_storage_self ..)]

/-- Witness for C2: at t = 200 the sponsored record for "P" (expiring at 100)
reads as `null` and is gone from durable storage afterwards. -/
theorem C2_expired_never_returned_deleted_witness :
    (getAttributionDataFor sampleCfg stExpired "P" true).1 = none ∧
    mapLookup (getAttributionDataFor sampleCfg stExpired "P" true).2.storage
      (storageKey "pa_" "cust" "P" true) = none := by
  have h := C2_expired_never_returned_deleted sampleCfg stExpired "P" true
    sponsoredRec (by decide) (by decide) (by decide) (Or.inl (by decide))
  exact ⟨h.2.1, h.2.2.2.1⟩

/-- Claim C3: after a purchase enriches a product using the resolved
attribution record of either channel, the used channel's record for that
product is deleted, so a following read of that product/channel returns none;
and only that channel is consumed: if the sponsored record was used, any live
organic record for the same product is still returned by `_getAttributionData`
afterwards.  `ch` is the channel the used record lives under; `hch` states the
record's persisted `isSponsored` flag names that channel (true of every record
`_storeAttributionData` writes, cf. the write-time derivation of C7), and when
the used channel is organic the sponsored channel holds nothing (`hnosp`),
since resolution would otherwise have preferred it. -/
theorem C3_purchase_consumes_used_channel (cfg : Config) (st : SDKState)
    (refId : String) (ch : Bool) (a : AttributionData) (p : InputProduct)
    (hcust : st.customerId ≠ "") (hrefne : refId ≠ "")
    (hp : p.refId = refId)
    (hlive : liveAt cfg st refId ch a) (hch : a.isSponsored = ch)
    (hnosp : ch = false →
      mapLookup st.cache (mapKey refId true) = none ∧
      mapLookup st.storage (storageKey cfg.cookiePfx st.customerId refId true)
        = none) :
    (trackPurchase cfg st [p]).1 =
      [mergeAttributionData (enrichProductData p) a.attrFields] ∧
    (getAttributionDataFor cfg (trackPurchase cfg st [p]).2 refId ch).1 = none ∧
    (∀ o : AttributionData, ch = true → liveAt cfg st refId false o →
      (getAttributionData cfg (trackPurchase cfg st [p]).2 refId).1 = some o) := by
  have hguard : ¬(st.customerId = "" ∨ refId = "") := by
    push_neg
    exact ⟨hcust, hrefne⟩
  cases ch with
  | true =>
      obtain ⟨h1, hframe, hstor, hnow, hcid⟩ := getFor_of_liveAt hlive
      have hpair : getAttributionDataFor cfg st refId true =
          (some a, (getAttributionDataFor cfg st refId true).2) :=
        Prod.ext_iff.mpr ⟨h1, rfl⟩
      have hres : getAttributionData cfg st refId =
          (some a, (getAttributionDataFor cfg st refId true).2) := by
        unfold getAttributionData
        rw [if_neg hguard, hpair]
      have hprep : prepareProductWithAttribution cfg st p =
          ((mergeAttributionData (enrichProductData p) a.attrFields, some a),
            (getAttributionDataFor cfg st refId true).2) := by
        unfold prepareProductWithAttribution
        rw [hp, hres]
      have hstRcust : ¬((getAttributionDataFor cfg st refId true).2.customerId
          = "") := by
        rw [hcid]
        exact hcust
      have htp : trackPurchase cfg st [p] =
          ([mergeAttributionData (enrichProductData p) a.attrFields],
            cleanupChannel cfg (getAttributionDataFor cfg st refId true).2
              refId true) := by
        simp only [trackPurchase, List.foldl_cons, List.foldl_nil, purchaseStep,
          hprep, hp, hch, List.nil_append, cleanupExpiredAttributionData,
          hstRcust, if_false, ite_false]
      have habsT : getAttributionDataFor cfg
          (cleanupChannel cfg (getAttributionDataFor cfg st refId true).2
            refId true) refId true =
          (none,
            cleanupChannel cfg (getAttributionDataFor cfg st refId true).2
              refId true) :=
        getFor_of_absent (cleanupChannel_cache_self ..)
          (cleanupChannel_storage_self ..)
      refine ⟨by rw [htp], by rw [htp, habsT], ?_⟩
      intro o _ ho
      obtain ⟨honow, hoc⟩ := ho
      rw [htp]
      have hFcid : (cleanupChannel cfg (getAttributionDataFor cfg st refId true).2
          refId true).customerId = st.customerId := hcid
      have hFnow : (cleanupChannel cfg (getAttributionDataFor cfg st refId true).2
          refId true).now = st.now := hnow
      have hFguard : ¬((cleanupChannel cfg
          (getAttributionDataFor cfg st refId true).2 refId true).customerId = ""
          ∨ refId = "") := by
        rw [hFcid]
        exact hguard
      have hlive' : liveAt cfg
          (cleanupChannel cfg (getAttributionDataFor cfg st refId true).2
            refId true) refId false o := by
        constructor
        · rw [hFnow]
          exact honow
        · have hcache_eq : mapLookup (cleanupChannel cfg
              (getAttributionDataFor cfg st refId true).2 refId true).cache
              (mapKey refId false) = mapLookup st.cache (mapKey refId false) := by
            rw [cleanupChannel_cache_eq,
              mapLookup_erase_ne _ _ _ (Ne.symm (mapKey_sp_ne refId))]
            exact hframe _ (Ne.symm (mapKey_sp_ne refId))
          have hstorage_eq : mapLookup (cleanupChannel cfg
              (getAttributionDataFor cfg st refId true).2 refId true).storage
              (storageKey cfg.cookiePfx
                (cleanupChannel cfg (getAttributionDataFor cfg st refId true).2
                  refId true).customerId refId false) =
              mapLookup st.storage
                (storageKey cfg.cookiePfx st.customerId refId false) := by
            rw [hFcid, cleanupChannel_storage_eq, hcid,
              mapLookup_erase_ne _ _ _
                (Ne.symm (storageKey_sp_ne cfg.cookiePfx st.customerId refId)),
              hstor]
          rw [hcache_eq, hstorage_eq]
          exact hoc
      obtain ⟨ho1, _, _, _, _⟩ := getFor_of_liveAt hlive'
      unfold getAttributionData
      rw [if_neg hFguard, habsT]
      exact ho1
  | false =>
      obtain ⟨h1, hframe, hstor, hnow, hcid⟩ := getFor_of_liveAt hlive
      have habs : getAttributionDataFor cfg st refId true = (none, st) :=
        getFor_of_absent (hnosp rfl).1 (hnosp rfl).2
      have hpair : getAttributionDataFor cfg st refId false =
          (some a, (getAttributionDataFor cfg st refId false).2) :=
        Prod.ext_iff.mpr ⟨h1, rfl⟩
      have hres : getAttributionData cfg st refId =
          (some a, (getAttributionDataFor cfg st refId false).2) := by
        unfold getAttributionData
        rw [if_neg hguard, habs]
        exact hpair
      have hprep : prepareProductWithAttribution cfg st p =
          ((mergeAttributionData (enrichProductData p) a.attrFields, some a),
            (getAttributionDataFor cfg st refId false).2) := by
        unfold prepareProductWithAttribution
        rw [hp, hres]
      have hstRcust : ¬((getAttributionDataFor cfg st refId false).2.customerId
          = "") := by
        rw [hcid]
        exact hcust
      have htp : trackPurchase cfg st [p] =
          ([mergeAttributionData (enrichProductData p) a.attrFields],
            cleanupChannel cfg (getAttributionDataFor cfg st refId false).2
              refId false) := by
        simp only [trackPurchase, List.foldl_cons, List.foldl_nil, purchaseStep,
          hprep, hp, hch, List.nil_append, cleanupExpiredAttributionData,
          hstRcust, if_false, ite_false]
      have habsF : getAttributionDataFor cfg
          (cleanupChannel cfg (getAttributionDataFor cfg st refId false).2
            refId false) refId false =
          (none,
            cleanupChannel cfg (getAttributionDataFor cfg st refId false).2
              refId false) :=
        getFor_of_absent (cleanupChannel_cache_self ..)
          (cleanupChannel_storage_self ..)
      refine ⟨by rw [htp], by rw [htp, habsF], ?_⟩
      intro o hct _
      exact absurd hct Bool.false_ne_true

/-- Witness for C3, exercising both channels: purchasing "P" from a state with
both records consumes the sponsored one and the organic still resolves;
purchasing "P" from a state with only the organic record consumes the organic
channel. -/
theorem C3_purchase_consumes_used_channel_witness :
    (getAttributionData sampleCfg
      (trackPurchase sampleCfg stBoth [{ refId := "P" }]).2 "P").1 =
        some organicRec ∧
    (getAttributionDataFor sampleCfg
      (trackPurchase sampleCfg stOrganicOnly [{ refId := "P" }]).2 "P" false).1 =
        none :=
  ⟨(C3_purchase_consumes_used_channel sampleCfg stBoth "P" true sponsoredRec
      { refId := "P" } (by decide) (by decide) (by decide) (by decide) (by decide)
      (fun h => absurd h (by decide))).2.2 organicRec rfl (by decide),
   (C3_purchase_consumes_used_channel sampleCfg stOrganicOnly "P" false organicRec
      { refId := "P" } (by decide) (by decide) (by decide) (by decide) (by decide)
      (fun _ => (by decide))).2.1⟩

/-- Claim C6: two successive stores for the same attribution key (same
customer, product and channel) are extensionally the second store alone: the
resulting state is literally the state the second store would produce from the
initial state, and both the in-memory cache and durable storage hold exactly
the second record's data. -/
theorem C6_last_click_wins (cfg : Config) (st : SDKState) (refId : String)
    (cd1 cd2 : ClickData)
    (hcust : st.customerId ≠ "") (href : refId ≠ "")
    (hch : cd1.isSponsored = cd2.isSponsored) :
    (storeAttributionData cfg false
        (storeAttributionData cfg false st refId cd1).1 refId cd2).1 =
      (storeAttributionData cfg false st refId cd2).1 ∧
    mapLookup (storeAttributionData cfg false
        (storeAttributionData cfg false st refId cd1).1 refId cd2).1.cache
        (mapKey refId cd2.isSponsored) =
      some (mkAttributionData cd2 st.now cfg.attributionWindow) ∧
    mapLookup (storeAttributionData cfg false
        (storeAttributionData cfg false st refId cd1).1 refId cd2).1.storage
        (storageKey cfg.cookiePfx st.customerId refId cd2.isSponsored) =
      some (StoredVal.ofRecord (mkAttributionData cd2 st.now cfg.attributionWindow)) := by
  have hguard : ¬(st.customerId = "" ∨ refId = "") := by
    push_neg
    exact ⟨hcust, href⟩
  have h1 := store_ok_eq cfg st refId cd1 hguard
  have hguard1 : ¬((storeAttributionData cfg false st refId cd1).1.customerId = ""
      ∨ refId = "") := by
    rw [h1]
    exact hguard
  have h2 := store_ok_eq cfg (storeAttributionData cfg false st refId cd1).1 refId
    cd2 hguard1
  rw [h1] at h2
  have h3 := store_ok_eq cfg st refId cd2 hguard
  rw [h1, h2, h3]
  dsimp only
  rw [hch]
  refine ⟨?_, ?_, ?_⟩
  · congr 1
    · exact mapSet_set_self ..
    · exact mapSet_set_self ..
  · rw [mapSet_set_self]
    exact mapLookup_set_self ..
  · rw [mapSet_set_self]
    exact mapLookup_set_self ..

/-- Witness for C6: store two different sponsored clicks for "P" in a row from
a state with a session; only the second click's record remains anywhere. -/
theorem C6_last_click_wins_witness :
    (storeAttributionData sampleCfg false
        (storeAttributionData sampleCfg false { customerId := "cust" } "P"
          { clickId := some "C1", adSetId := some "A", isSponsored := true }).1 "P"
        { clickId := some "C2", adSetId := some "B", isSponsored := true }).1 =
      (storeAttributionData sampleCfg false { customerId := "cust" } "P"
        { clickId := some "C2", adSetId := some "B", isSponsored := true }).1 :=
  (C6_last_click_wins sampleCfg { customerId := "cust" } "P"
    { clickId := some "C1", adSetId := some "A", isSponsored := true }
    { clickId := some "C2", adSetId := some "B", isSponsored := true }
    (by decide) (by decide) (by decide)).1

/-- Claim C4: add-to-cart whose event data carries no (truthy) explicit
`clickId`, for a product with no resolvable live record, throws the
missing-attribution error (`Error('Add to Cart requires clickId...')`, the
spec's `MissingAttributionError`); no event payload is produced, so nothing is
queued or sent. -/
theorem C4_missing_attribution_error (cfg : Config) (st : SDKState)
    (e : AddToCartInput)
    (hclick : jsTruthy e.clickId = false)
    (hnores : (getAttributionData cfg st e.product.refId).1 = none) :
    (trackAddToCart cfg st e).1 = Except.error TrackError.missingAttribution := by
  have hc' : ¬(jsTruthy e.clickId = true) := by
    rw [hclick]
    exact Bool.false_ne_true
  have hpair : getAttributionData cfg st e.product.refId =
      (none, (getAttributionData cfg st e.product.refId).2) :=
    Prod.ext_iff.mpr ⟨hnores, rfl⟩
  unfold trackAddToCart
  rw [if_neg hc', hpair]

/-- Witness for C4 at a session state with no stored records at all. -/
theorem C4_missing_attribution_error_witness :
    (trackAddToCart sampleCfg { customerId := "cust" }
      { product := { refId := "P" } }).1 =
      Except.error TrackError.missingAttribution :=
  C4_missing_attribution_error sampleCfg { customerId := "cust" }
    { product := { refId := "P" } } (by decide) (by decide)

/-- Counterexample to C5 as stated: product "P" is enriched from the organic
record (the resolved record is `organicRec`, `isSponsored = false`), yet the
enriched product still contains `adSetId = some "A"`: the merge refrains from
copying sponsored-only fields out of an organic record, but it does not strip
the ones the caller's product already carried. -/
theorem C5_counterexample :
    (prepareProductWithAttribution sampleCfg stOrganicOnly pWithAdSet).1.2 =
      some organicRec ∧
    organicRec.isSponsored = false ∧
    ((prepareProductWithAttribution sampleCfg stOrganicOnly pWithAdSet).1.1).adSetId =
      some "A" := by
  decide

/-- Claim C5 (amended): enriching a product from an organic attribution record
never takes a sponsored-only field from the record: each of `adSetId`,
`adSetVersion`, `costPerClick`, `costPerAction`, `costPerMille`, `timeStamp`,
`hmacSalt`, `hmac` of the enriched product equals the caller-supplied product's
own value, and `supplierId` is always absent (`_enrichProductData` has no
`supplierId` key); in particular a product carrying none of these fields stays
free of them. -/
theorem C5_organic_no_sponsored_leak (cfg : Config) (st : SDKState)
    (p : InputProduct) (a : AttributionData)
    (hres : (getAttributionData cfg st p.refId).1 = some a)
    (horg : a.isSponsored = false) :
    ((prepareProductWithAttribution cfg st p).1.1).adSetId = p.adSetId ∧
    ((prepareProductWithAttribution cfg st p).1.1).adSetVersion = p.adSetVersion ∧
    ((prepareProductWithAttribution cfg st p).1.1).costPerClick = p.costPerClick ∧
    ((prepareProductWithAttribution cfg st p).1.1).costPerAction = p.costPerAction ∧
    ((prepareProductWithAttribution cfg st p).1.1).costPerMille = p.costPerMille ∧
    ((prepareProductWithAttribution cfg st p).1.1).timeStamp = p.timeStamp ∧
    ((prepareProductWithAttribution cfg st p).1.1).hmacSalt = p.hmacSalt ∧
    ((prepareProductWithAttribution cfg st p).1.1).hmac = p.hmac ∧
    ((prepareProductWithAttribution cfg st p).1.1).supplierId = none := by
  have hpair : getAttributionData cfg st p.refId =
      (some a, (getAttributionData cfg st p.refId).2) :=
    Prod.ext_iff.mpr ⟨hres, rfl⟩
  unfold prepareProductWithAttribution
  rw [hpair]
  dsimp only
  simp [mergeAttributionData, enrichProductData, AttributionData.attrFields, horg]

/-- Witness for C5 (amended): a plain product enriched from the organic record
carries no `adSetId` and no `supplierId`. -/
theorem C5_organic_no_sponsored_leak_witness :
    ((prepareProductWithAttribution sampleCfg stOrganicOnly
        { refId := "P" }).1.1).adSetId = none ∧
    ((prepareProductWithAttribution sampleCfg stOrganicOnly
        { refId := "P" }).1.1).supplierId = none := by
  have h := C5_organic_no_sponsored_leak sampleCfg stOrganicOnly { refId := "P" }
    organicRec (by decide) (by decide)
  exact ⟨h.1, h.2.2.2.2.2.2.2.2⟩

/-- Counterexample to C7 as stated: a `trackClick` call whose event data has a
product reference and a widget id, made while the session has no customer id,
stores nothing - the whole SDK state (cache and storage included) is unchanged,
although the claimed condition for storing holds.  The claim misses the
`customerId` guard of `_storeAttributionData`. -/
theorem C7_counterexample :
    jsTruthy (ClickInput.refId { refId := some "P", widgetId := some "W1" }) = true ∧
    jsTruthy (ClickInput.widgetId { refId := some "P", widgetId := some "W1" }) = true ∧
    trackClick sampleCfg false { now := 5 }
      { refId := some "P", widgetId := some "W1" } "GEN" = { now := 5 } := by
  decide

/-- Claim C7 (amended): a `trackClick` call stores an attribution record iff the
session has a non-empty customer id and the event data has a (truthy) product
reference and either a (truthy) widget id or ad-set id; the stored record's
channel is derived once at write time - its persisted `isSponsored` flag is
exactly "the click carried a non-empty adSetId" - and both the cache and the
durable storage receive it under that channel's key. -/
theorem C7_store_condition (cfg : Config) (st : SDKState) (e : ClickInput)
    (genId : String) :
    (st.customerId ≠ "" ∧ jsTruthy e.refId = true ∧
        (jsTruthy e.widgetId = true ∨ jsTruthy e.adSetId = true) →
      trackClick cfg false st e genId =
        (storeAttributionData cfg false st (jsStr e.refId)
          (clickEventData st e genId)).1 ∧
      mapLookup (trackClick cfg false st e genId).cache
          (mapKey (jsStr e.refId) (jsTruthy e.adSetId)) =
        some (mkAttributionData (clickEventData st e genId) st.now
          cfg.attributionWindow) ∧
      mapLookup (trackClick cfg false st e genId).storage
          (storageKey cfg.cookiePfx st.customerId (jsStr e.refId)
            (jsTruthy e.adSetId)) =
        some (StoredVal.ofRecord (mkAttributionData (clickEventData st e genId)
          st.now cfg.attributionWindow)) ∧
      (mkAttributionData (clickEventData st e genId) st.now
        cfg.attributionWindow).isSponsored = jsTruthy e.adSetId) ∧
    (¬(jsTruthy e.refId = true ∧
        (jsTruthy e.widgetId = true ∨ jsTruthy e.adSetId = true)) →
      trackClick cfg false st e genId = st) ∧
    (st.customerId = "" → trackClick cfg false st e genId = st) := by
  refine ⟨?_, ?_, ?_⟩
  · rintro ⟨hcust, hrefId, hctx⟩
    have hcond : (jsTruthy e.refId && (jsTruthy e.widgetId || jsTruthy e.adSetId))
        = true := by
      rcases hctx with h | h <;> simp [hrefId, h]
    have hguard : ¬(st.customerId = "" ∨ jsStr e.refId = "") := by
      push_neg
      exact ⟨hcust, jsStr_ne_of_truthy hrefId⟩
    have htc : trackClick cfg false st e genId =
        (storeAttributionData cfg false st (jsStr e.refId)
          (clickEventData st e genId)).1 := by
      unfold trackClick
      rw [if_pos hcond]
    refine ⟨htc, ?_, ?_, rfl⟩
    · rw [htc, store_ok_eq cfg st (jsStr e.refId) (clickEventData st e genId) hguard]
      exact mapLookup_set_self ..
    · rw [htc, store_ok_eq cfg st (jsStr e.refId) (clickEventData st e genId) hguard]
      exact mapLookup_set_self ..
  · intro hcond
    have hb : ¬((jsTruthy e.refId && (jsTruthy e.widgetId || jsTruthy e.adSetId))
        = true) := by
      intro hb
      apply hcond
      simpa [Bool.and_eq_true, Bool.or_eq_true] using hb
    unfold trackClick
    rw [if_neg hb]
  · intro hcid0
    unfold trackClick
    split
    · unfold storeAttributionData
      rw [if_pos (Or.inl hcid0)]
    · rfl

/-- Witness for C7 (amended): a sponsored click for "P" under a session stores
its record in the cache under the sponsored key. -/
theorem C7_store_condition_witness :
    mapLookup (trackClick sampleCfg false { customerId := "cust" }
        clickSponsored "G").cache (mapKey "P" true) =
      some (mkAttributionData
        (clickEventData { customerId := "cust" } clickSponsored "G") 0 1000) := by
  have h := ((C7_store_condition sampleCfg { customerId := "cust" }
    clickSponsored "G").1 ⟨by decide, by decide, Or.inr (by decide)⟩).2.1
  exact h

/-- Counterexample to C8 as stated: reading the sponsored channel of "P" whose
stored value fails to parse returns "not found", but the corrupt entry is NOT
deleted - it is still in durable storage after the read (the `catch` around
`JSON.parse` only logs). -/
theorem C8_counterexample :
    (getAttributionDataFor sampleCfg stCorrupt "P" true).1 = none ∧
    mapLookup (getAttributionDataFor sampleCfg stCorrupt "P" true).2.storage
      (storageKey "pa_" "cust" "P" true) = some StoredVal.corrupt := by
  decide

/-- Claim C8 (amended): a stored value that fails to parse is treated as not
found - the channel read returns `null` - but the failed read has no side
effect at all: the corrupt entry is not deleted and the state is returned
unchanged. -/
theorem C8_corrupt_read_not_found (cfg : Config) (st : SDKState)
    (refId : String) (sp : Bool)
    (hcache : mapLookup st.cache (mapKey refId sp) = none)
    (hcorrupt : mapLookup st.storage
      (storageKey cfg.cookiePfx st.customerId refId sp) = some StoredVal.corrupt) :
    getAttributionDataFor cfg st refId sp = (none, st) := by
  unfold getAttributionDataFor
  rw [hcache]
  unfold attributionStorageRead
  rw [hcorrupt]

/-- Witness for C8 (amended) at the concrete corrupt-entry state. -/
theorem C8_corrupt_read_not_found_witness :
    getAttributionDataFor sampleCfg stCorrupt "P" true = (none, stCorrupt) :=
  C8_corrupt_read_not_found sampleCfg stCorrupt "P" true (by decide) (by decide)

/-- Counterexample to C9's "degrades to a no-op": with a failing durable write,
`_storeAttributionData` still mutates the SDK - the in-memory cache receives
the record (the state differs from the initial one) and a subsequent resolve
returns the record. -/
theorem C9_counterexample :
    (storeAttributionData sampleCfg true { customerId := "cust" } "P" cdSample).1 ≠
      { customerId := "cust" } ∧
    (getAttributionData sampleCfg
      (storeAttributionData sampleCfg true { customerId := "cust" } "P" cdSample).1
      "P").1 = some (mkAttributionData cdSample 0 1000) := by
  decide

/-- Claim C9 (amended): `_storeAttributionData` never throws to its caller - on
every input, including a failing durable write, the exception is caught and
logged inside the function - and a failing durable write leaves durable storage
unchanged.  (The operation is not a complete no-op on such a failure: the
in-memory cache keeps the new record, see the counterexample.) -/
theorem C9_store_never_throws (cfg : Config) (storeFails : Bool) (st : SDKState)
    (refId : String) (cd : ClickData) :
    (storeAttributionData cfg storeFails st refId cd).2 = false ∧
    (storeFails = true →
      (storeAttributionData cfg storeFails st refId cd).1.storage = st.storage) := by
  constructor
  · unfold storeAttributionData
    split
    · rfl
    · rfl
  · intro hf
    subst hf
    unfold storeAttributionData
    split
    · rfl
    · rfl

/-- Witness for C9 (amended) with a failing durable write: no exception escapes
and durable storage is untouched. -/
theorem C9_store_never_throws_witness :
    (storeAttributionData sampleCfg true { customerId := "cust" } "P" cdSample).2 =
      false ∧
    (storeAttributionData sampleCfg true { customerId := "cust" } "P"
      cdSample).1.storage = [] := by
  have h := C9_store_never_throws sampleCfg true { customerId := "cust" } "P" cdSample
  exact ⟨h.1, h.2 rfl⟩

/-- Claim C10: add-to-cart with a truthy explicit `clickId` never consults the
attribution store: the returned state is literally the initial one (cache and
storage included, so no record resolution and no expiry deletion happened), and
the event's attribution fields come from the caller-supplied event data
(`_mergeAttributionData(baseEvent, eventData)`), its `clickId` being the
caller's. -/
theorem C10_explicit_clickId_frame (cfg : Config) (st : SDKState)
    (e : AddToCartInput) (hclick : jsTruthy e.clickId = true) :
    trackAddToCart cfg st e = (Except.ok (mkCartEvent st e none), st) ∧
    (mkCartEvent st e none).recommenderId = e.recommenderId ∧
    (mkCartEvent st e none).campaignId = e.campaignId ∧
    (mkCartEvent st e none).widgetId = e.widgetId ∧
    (mkCartEvent st e none).routeId = e.routeId ∧
    (mkCartEvent st e none).clickId = e.clickId := by
  refine ⟨?_, rfl, rfl, rfl, rfl, ?_⟩
  · unfold trackAddToCart
    rw [if_pos hclick]
  · simp [mkCartEvent, mergeAttributionDataCart, jsOr, hclick]

/-- Witness for C10: with `clickId := "C9"` supplied, add-to-cart leaves the
state untouched and uses the caller's click id. -/
theorem C10_explicit_clickId_frame_witness :
    trackAddToCart sampleCfg stBoth
        { clickId := some "C9", product := { refId := "P" },
          campaignId := some "CAMP" } =
      (Except.ok (mkCartEvent stBoth
        { clickId := some "C9", product := { refId := "P" },
          campaignId := some "CAMP" } none), stBoth) :=
  (C10_explicit_clickId_frame sampleCfg stBoth
    { clickId := some "C9", product := { refId := "P" },
      campaignId := some "CAMP" } (by decide)).1

end PASdk
